import Mathlib

/-!
# Verification of the real-time blockchain ingestion pipeline

Shallow embedding of the core pipeline of this repository:

* `BlockchainWebSocketClient` (`src/data_pipeline/websocket_client.py`):
  connection / reconnection state machine and the message-processing path.
* `RedisMessageQueue` (`src/data_pipeline/message_queue.py`):
  the Redis-sorted-set-backed durable queue.
* `MessageProcessor` (same file): the consumer loop.
* `DataPipeline` (`blockchain-ml/src/data_pipeline/main.py`):
  the orchestrator wiring and teardown.

Python `dict` values parsed from JSON frames are modelled by the inductive
type `JVal`.  The Redis sorted set backing the queue is modelled as a list
of (member, score) pairs where the member identity is the serialized JSON
text of the stored envelope, exactly as the code stores
`json.dumps(message_data)` as the set member.  Asynchronous effects
(logging, metrics, handler invocation) are modelled as explicit event
traces; an `await` of a task means the awaited computation's events occur
before the awaiting function returns.
-/

/-- A JSON value, the model of the Python values handled by `json.loads` /
`json.dumps` in the pipeline (`dict`, `list`, `str`, `int`, `bool`, `None`).
Numbers are modelled as integers (the only numbers the pipeline itself
produces are timestamps and priorities). -/
inductive JVal where
  | null
  | bool (b : Bool)
  | num (n : Int)
  | str (s : String)
  | arr (xs : List JVal)
  | obj (kvs : List (String × JVal))

/-- Escape the characters of a string for JSON output (backslash and double
quote, the cases relevant to the values this pipeline serializes). -/
def escapeJChars : List Char → String
  | [] => ""
  | c :: cs =>
    (if c = '\\' then "\\\\"
     else if c = '"' then "\\\"" else String.singleton c) ++ escapeJChars cs

/-- Escape a string for JSON output. -/
def escapeJStr (s : String) : String :=
  escapeJChars s.data

mutual

/-- Model of Python `json.dumps` with its default separators, applied to a
`JVal`.  Used because the queue stores the serialized envelope text as the
Redis sorted-set member, so member identity and lexicographic tie-breaking
are decided on this string. -/
def JVal.dumps : JVal → String
  | .null => "null"
  | .bool b => if b then "true" else "false"
  | .num n => toString n
  | .str s => "\"" ++ escapeJStr s ++ "\""
  | .arr xs => "[" ++ JVal.dumpsArr xs ++ "]"
  | .obj kvs => "\x7b" ++ JVal.dumpsObj kvs ++ "\x7d"

/-- Comma-separated dump of a JSON array body. -/
def JVal.dumpsArr : List JVal → String
  | [] => ""
  | [x] => JVal.dumps x
  | x :: y :: xs => JVal.dumps x ++ ", " ++ JVal.dumpsArr (y :: xs)

/-- Comma-separated dump of a JSON object body. -/
def JVal.dumpsObj : List (String × JVal) → String
  | [] => ""
  | [(k, v)] => "\"" ++ escapeJStr k ++ "\": " ++ JVal.dumps v
  | (k, v) :: p :: kvs =>
      "\"" ++ escapeJStr k ++ "\": " ++ JVal.dumps v ++ ", " ++
        JVal.dumpsObj (p :: kvs)

end

/-- Model of Python `dict.get(k, dflt)` on a parsed JSON value: the value
bound to the first occurrence of key `k` when the value is an object,
otherwise the default. -/
def JVal.get (v : JVal) (k : String) (dflt : JVal) : JVal :=
  match v with
  | .obj kvs =>
    match kvs.find? (fun p => p.1 == k) with
    | some p => p.2
    | none => dflt
  | _ => dflt

/-- Model of the Python comparison `v == s` between an arbitrary value and a
string literal: true exactly when `v` is that string. -/
def JVal.isStrEq (v : JVal) (s : String) : Bool :=
  match v with
  | .str t => t == s
  | _ => false

/-! ## RedisMessageQueue (`src/data_pipeline/message_queue.py`) -/

/-- The envelope `message_data` built by `enqueue_message`:
`{"data": message, "timestamp": now, "priority": priority}`.
The event-loop timestamp is modelled as a natural number. -/
structure Envelope where
  data : JVal
  timestamp : Nat
  priority : Int

/-- `json.dumps(message_data)` — the serialized envelope text, which is the
Redis sorted-set member under which the message is stored. -/
def Envelope.dump (e : Envelope) : String :=
  JVal.dumps (.obj
    [("data", e.data), ("timestamp", .num (e.timestamp : Int)),
     ("priority", .num e.priority)])

/-- State of a `RedisMessageQueue` instance together with the contents of
its backing Redis sorted set.  `store` is the sorted-set content as
(envelope, score) pairs; member identity is the envelope's serialized text
(`Envelope.dump`), mirroring Redis member semantics. -/
structure QueueState where
  redis_client : Bool
  is_connected : Bool
  store : List (Envelope × Nat)

/-- Errors raised by the queue operations: `ConnectionError("Not connected
to Redis")`. -/
inductive QErr where
  | connectionError
deriving DecidableEq

/-- Redis `ZADD key (member : score)`: update the score when the member is
already present, insert it otherwise. -/
def zadd (q : List (Envelope × Nat)) (e : Envelope) (score : Nat) :
    List (Envelope × Nat) :=
  if q.any (fun p => p.1.dump == e.dump) then
    q.map (fun p => if p.1.dump == e.dump then (p.1, score) else p)
  else
    q ++ [(e, score)]

/-- Strict ordering used by Redis on sorted-set entries: by score, ties
broken by lexicographic order of the member string. -/
def entryLt (a b : Envelope × Nat) : Bool :=
  if a.2 < b.2 then true
  else if a.2 = b.2 then decide (a.1.dump < b.1.dump)
  else false

/-- Redis `ZRANGE key 0 0 WITHSCORES`: the entry with the lowest score
(ties broken lexicographically by member), or none when the set is empty. -/
def zrange00 (q : List (Envelope × Nat)) : Option (Envelope × Nat) :=
  match q with
  | [] => none
  | x :: xs => some (xs.foldl (fun best p => if entryLt p best then p else best) x)

/-- Redis `ZREM key member`: remove the entry whose member string equals the
given envelope's serialized text. -/
def zrem (q : List (Envelope × Nat)) (e : Envelope) : List (Envelope × Nat) :=
  q.filter (fun p => !(p.1.dump == e.dump))

/-- `RedisMessageQueue.enqueue_message(message, priority)` at event-loop
time `now`: raises `ConnectionError` when not connected; otherwise builds
the envelope `{"data": message, "timestamp": now, "priority": priority}`
and `ZADD`s its serialized text with the timestamp as score. -/
def enqueue_message (s : QueueState) (message : JVal) (priority : Int)
    (now : Nat) : Except QErr QueueState :=
  if !s.is_connected then .error .connectionError
  else
    let env : Envelope := ⟨message, now, priority⟩
    .ok { s with store := zadd s.store env env.timestamp }

/-- `RedisMessageQueue.dequeue_message()`: raises `ConnectionError` when not
connected; otherwise reads the lowest-score member (`ZRANGE 0 0`), removes
it (`ZREM`), and returns the envelope's `"data"` field, or `none` when the
queue is empty. -/
def dequeue_message (s : QueueState) : Except QErr (Option JVal × QueueState) :=
  if !s.is_connected then .error .connectionError
  else
    match zrange00 s.store with
    | none => .ok (none, s)
    | some (env, _) => .ok (some env.data, { s with store := zrem s.store env })

/-- `RedisMessageQueue.get_queue_size()`: returns `0` without raising when
not connected, otherwise `ZCARD` of the backing set. -/
def get_queue_size (s : QueueState) : Nat :=
  if !s.is_connected then 0 else s.store.length

/-! ## BlockchainWebSocketClient reconnection
(`src/data_pipeline/websocket_client.py`, `connect` / `handle_reconnect`)

The transport is modelled by an oracle `outcome : Nat → Bool` giving the
result of the i-th `websockets.connect` call (`true` = the connection is
established, `false` = it raises).  `connect` catches every exception and
calls `handle_reconnect`, which retries `connect` after a sleep, so the two
functions are mutually recursive exactly as in the source; termination is
by the retry budget `max_reconnect_attempts - reconnect_attempts`. -/

/-- The mutable connection state of a `BlockchainWebSocketClient`. -/
structure ClientState where
  reconnect_attempts : Nat
  is_connected : Bool
deriving DecidableEq

mutual

/-- `BlockchainWebSocketClient.connect()` with `max_reconnect_attempts =
maxA`, transport oracle `outcome`, next attempt index `i` and current state
`s`.  Returns the number of transport connection attempts performed
(including those of the recursive reconnects) and the final state.  On
success it sets `is_connected := true` and `reconnect_attempts := 0`
(lines 57-59); on failure it catches the exception and invokes
`handle_reconnect` (lines 65-67). -/
def connect (maxA : Nat) (outcome : Nat → Bool) (i : Nat) (s : ClientState) :
    Nat × ClientState :=
  if outcome i then
    (1, ⟨0, true⟩)
  else
    match handle_reconnect maxA outcome (i + 1) s with
    | (n, s2) => (1 + n, s2)
termination_by 2 * (maxA - s.reconnect_attempts) + 1

/-- `BlockchainWebSocketClient.handle_reconnect()`: returns immediately once
`reconnect_attempts >= max_reconnect_attempts` (lines 203-205); otherwise
increments the counter, marks the client disconnected, sleeps, retries
`connect`, and resets the counter when that retry ended connected
(lines 207-217).  `connect` never raises (it catches all exceptions), so
the `except` branch of lines 218-220 is unreachable. -/
def handle_reconnect (maxA : Nat) (outcome : Nat → Bool) (i : Nat) :
    ClientState → Nat × ClientState
  | ⟨a, c⟩ =>
    if a ≥ maxA then
      (0, ⟨a, c⟩)
    else
      match connect maxA outcome i ⟨a + 1, false⟩ with
      | (n, s2) => (n, if s2.is_connected then ⟨0, true⟩ else s2)
termination_by s => 2 * (maxA - s.reconnect_attempts)

end

/-! ## BlockchainWebSocketClient.process_message and the read loop

`process_message` (lines 142-176) is modelled as a function from the parse
result of the raw frame to the trace of observable events it performs
before returning.  `json.loads` failing on a malformed frame is modelled by
the input `none`; a frame parsing to a non-object value makes the attribute
access `data.get` raise, which the generic `except` of line 171 catches.

The handler dispatch of line 167 is `await asyncio.create_task(...)`: the
task is created and then immediately awaited, so the handler runs to
completion (or failure, caught at line 171) before `process_message`
returns.  Its invocation and completion therefore both belong to the trace
of `process_message`. -/

/-- Observable events of the client's message-processing path. -/
inductive PMEvent where
  | frameRead (f : Option JVal)
  | parseErrorLogged
  | errorLogged
  | metricInc (ty : JVal)
  | utxLogged (d : JVal)
  | blockLogged (d : JVal)
  | pingLogged
  | unhandledLogged (ty : JVal)
  | handlerInvoked (d : JVal)
  | handlerCompleted (d : JVal)
  | enqueued (m : JVal) (t : Nat)
  | handlerErrorLogged
  | timeObserved

/-- `BlockchainWebSocketClient.process_message(message)` with a generic
message handler present iff `handlerPresent`: the trace of events performed
before the coroutine returns.  `parsed` is the result of `json.loads` on
the raw frame (`none` = `JSONDecodeError`). -/
def process_message (handlerPresent : Bool) (parsed : Option JVal) :
    List PMEvent :=
  match parsed with
  | none => [.parseErrorLogged, .timeObserved]
  | some d =>
    match d with
    | .obj kvs =>
      let ty := JVal.get (.obj kvs) "op" (.str "unknown")
      [PMEvent.metricInc ty] ++
      (if ty.isStrEq "utx" then [PMEvent.utxLogged (.obj kvs)]
       else if ty.isStrEq "block" then [PMEvent.blockLogged (.obj kvs)]
       else if ty.isStrEq "ping" then [PMEvent.pingLogged]
       else [PMEvent.unhandledLogged ty]) ++
      (if handlerPresent then
        [PMEvent.handlerInvoked (.obj kvs), PMEvent.handlerCompleted (.obj kvs)]
       else []) ++
      [PMEvent.timeObserved]
    | _ => [.errorLogged, .timeObserved]

/-- `BlockchainWebSocketClient.listen()` over a finite prefix of frames:
`async for message in self.websocket: await self.process_message(message)`
— each frame is read and then `process_message` is awaited before the next
frame is read. -/
def BlockchainWebSocketClient.listen (handlerPresent : Bool) (frames : List (Option JVal)) :
    List PMEvent :=
  frames.flatMap (fun f => PMEvent.frameRead f :: process_message handlerPresent f)

/-! ## DataPipeline wiring
(`blockchain-ml/src/data_pipeline/main.py`)

`DataPipeline.message_handler` is the callback the pipeline registers with
the client; it enqueues the parsed event into the queue, catching any
enqueue error. -/

/-- `DataPipeline.message_handler(message)` at event-loop time `now`:
enqueues into the queue when one is present; any exception is caught and
logged (lines 58-67).  Returns the new queue field and the handler's own
events. -/
def message_handler (mq : Option QueueState) (m : JVal) (now : Nat) :
    Option QueueState × List PMEvent :=
  match mq with
  | none => (none, [])
  | some qs =>
    match enqueue_message qs m 0 now with
    | .ok qs' => (some qs', [.enqueued m now])
    | .error _ => (some qs, [.handlerErrorLogged])

/-- `process_message` as run inside a `DataPipeline`, where the registered
handler is `DataPipeline.message_handler`: the client awaits the handler
task, so the enqueue effect happens between `handlerInvoked` and
`handlerCompleted`, before `process_message` returns. -/
def pipelineProcessFrame (mq : Option QueueState) (parsed : Option JVal)
    (now : Nat) : Option QueueState × List PMEvent :=
  match parsed with
  | none => (mq, [.parseErrorLogged, .timeObserved])
  | some d =>
    match d with
    | .obj kvs =>
      let ty := JVal.get (.obj kvs) "op" (.str "unknown")
      let branch :=
        (if ty.isStrEq "utx" then [PMEvent.utxLogged (.obj kvs)]
         else if ty.isStrEq "block" then [PMEvent.blockLogged (.obj kvs)]
         else if ty.isStrEq "ping" then [PMEvent.pingLogged]
         else [PMEvent.unhandledLogged ty])
      let h := message_handler mq (.obj kvs) now
      (h.1,
        [PMEvent.metricInc ty] ++ branch ++
        [PMEvent.handlerInvoked (.obj kvs)] ++ h.2 ++
        [PMEvent.handlerCompleted (.obj kvs)] ++ [PMEvent.timeObserved])
    | _ => (mq, [.errorLogged, .timeObserved])

/-- The pipeline's read loop over a finite prefix of timestamped frames:
each frame is read, then `process_message` (with the pipeline's handler) is
awaited before the next frame is read. -/
def pipelineListen (mq : Option QueueState) :
    List (Option JVal × Nat) → Option QueueState × List PMEvent
  | [] => (mq, [])
  | (f, t) :: rest =>
    let step := pipelineProcessFrame mq f t
    let tail := pipelineListen step.1 rest
    (tail.1, PMEvent.frameRead f :: step.2 ++ tail.2)

/-! ## MessageProcessor (`src/data_pipeline/message_queue.py`, lines 187-227)

The consumer loop.  The pluggable `processing_fn` is modelled by a function
`raises : JVal → Bool` telling whether the call `processing_fn(message)`
raises on that message (its return value is discarded by the loop). -/

/-- Observable events of one consumer-loop iteration. -/
inductive CEvent where
  | processed (m : JVal)
  | errorLogged
  | sleptEmpty

/-- State of a `MessageProcessor` together with its queue. -/
structure MPState where
  queue : QueueState
  running : Bool

/-- One iteration of the `while self.running` body of
`MessageProcessor.start_processing` (lines 200-222): dequeue; on `None`
sleep and continue; otherwise invoke `processing_fn`; any exception —
whether from the dequeue or from `processing_fn` — is caught, logged, and
followed by a sleep, after which the loop continues. -/
def processing_step (raises : JVal → Bool) (q : QueueState) :
    QueueState × List CEvent :=
  match dequeue_message q with
  | .error _ => (q, [.errorLogged])
  | .ok (none, q') => (q', [.sleptEmpty])
  | .ok (some m, q') =>
    if raises m then (q', [.errorLogged]) else (q', [.processed m])

/-- `MessageProcessor.start_processing` run for `fuel` iterations of the
`while self.running` loop (the loop itself is unbounded; `fuel` bounds the
observation window). -/
def start_processing (raises : JVal → Bool) :
    Nat → MPState → MPState × List CEvent
  | 0, st => (st, [])
  | fuel + 1, st =>
    if st.running then
      let step := processing_step raises st.queue
      let rest := start_processing raises fuel { st with queue := step.1 }
      (rest.1, step.2 ++ rest.2)
    else
      (st, [])

/-! ## DataPipeline teardown
(`blockchain-ml/src/data_pipeline/main.py`, lines 137-158)

Each component field of the pipeline is `None` until `start()` constructs
it.  Invoking a method on a `None` field would raise `AttributeError`; the
source guards every teardown step with a presence check (`if self.x:`).
The model makes the unguarded call an error so that the guards carry the
proof burden. -/

/-- Transport state of the websocket client relevant to `disconnect`:
whether a transport object was ever created (`self.websocket`) and the
connected flag. -/
structure WSClientState where
  websocket : Bool
  is_connected : Bool
deriving DecidableEq

/-- `BlockchainWebSocketClient.disconnect()` (lines 69-74): closes the
transport and clears `is_connected` only when a transport object exists;
calling it again is a no-op on the flag. -/
def ws_disconnect (c : WSClientState) : WSClientState :=
  if c.websocket then { c with is_connected := false } else c

/-- State of the `DatabaseHandler` relevant to `disconnect`: whether a
connection pool was created and the connected flag. -/
structure DBState where
  pool : Bool
  is_connected : Bool
deriving DecidableEq

/-- `DatabaseHandler.disconnect()`: closes the pool and clears
`is_connected` only when a pool exists. -/
def db_disconnect (d : DBState) : DBState :=
  if d.pool then { d with is_connected := false } else d

/-- `RedisMessageQueue.disconnect()` (lines 64-69): closes the client and
clears `is_connected` only when a client object exists. -/
def mq_disconnect (q : QueueState) : QueueState :=
  if q.redis_client then { q with is_connected := false } else q

/-- State of a `DataPipeline`: each component is `None` until `start()`
constructs it.  `message_processor` is represented by its `running` flag. -/
structure PipelineState where
  websocket_client : Option WSClientState
  message_queue : Option QueueState
  database : Option DBState
  message_processor : Option Bool
  running : Bool

/-- Errors of the teardown path: `AttributeError` from invoking a method on
a component that is `None`. -/
inductive PErr where
  | attributeError
deriving DecidableEq

/-- Invoking method `f` on an optional component: raises `AttributeError`
when the component is `None`. -/
def callMethod {α : Type} (c : Option α) (f : α → α) : Except PErr α :=
  match c with
  | none => .error .attributeError
  | some x => .ok (f x)

/-- A presence-guarded method call, `if self.x: await self.x.f()`: skips the
call when the component is `None`. -/
def guardedCall {α : Type} (c : Option α) (f : α → α) :
    Except PErr (Option α) :=
  if c.isSome then (callMethod c f).map some else .ok c

/-- `DataPipeline.stop()` (lines 137-158): sets `running = False`, then —
each step guarded by a presence check — stops the message processor
(`stop_processing` sets its `running` flag to `False`), disconnects the
websocket client, the database, and the message queue. -/
def DataPipeline.stop (p : PipelineState) : Except PErr PipelineState := do
  let mp ← guardedCall p.message_processor (fun _ => false)
  let ws ← guardedCall p.websocket_client ws_disconnect
  let db ← guardedCall p.database db_disconnect
  let mq ← guardedCall p.message_queue mq_disconnect
  pure { websocket_client := ws, message_queue := mq, database := db,
         message_processor := mp, running := false }

/-! ## Theorems -/

theorem handle_reconnect_allfail (maxA : Nat) :
    ∀ (m a i : Nat), a + m = maxA →
      handle_reconnect maxA (fun _ => false) i ⟨a, false⟩ = (m, ⟨maxA, false⟩) := by
  intro m
  induction m with
  | zero =>
    intro a i h
    have ha : a = maxA := by omega
    subst ha
    rw [handle_reconnect, if_pos (le_refl a)]
  | succ m ih =>
    intro a i h
    have hlt : ¬ (a ≥ maxA) := by omega
    rw [handle_reconnect, if_neg hlt, connect]
    simp only [Bool.false_eq_true, if_false]
    rw [ih (a + 1) (i + 1) (by omega)]
    simp [Nat.add_comm]

theorem connect_eventually_succeeds (N : Nat) :
    ∀ (m a i k : Nat), i + m = k → a + m ≤ N →
      connect N (fun j => j == k) i ⟨a, false⟩ = (m + 1, ⟨0, true⟩) := by
  intro m
  induction m with
  | zero =>
    intro a i k h hb
    have hik : (i == k) = true := by simp; omega
    rw [connect]
    simp [hik]
  | succ m ih =>
    intro a i k h hb
    have hik : (i == k) = false := by simp; omega
    rw [connect]
    simp only [hik, Bool.false_eq_true, if_false]
    rw [handle_reconnect, if_neg (show ¬ (a ≥ N) by omega)]
    rw [ih (a + 1) (i + 1) k (by omega) (by omega)]
    simp [Nat.add_comm]

/-- C1: with `max_reconnect_attempts = N` and a transport on which every
connection attempt fails, `connect` performs exactly `N + 1` transport
connection attempts in total (the initial one plus `N` retries through
`handle_reconnect`) and then stops, disconnected with the counter at `N`;
moreover the retry recursion halts immediately (making zero further
attempts) whenever `reconnect_attempts ≥ N`. -/
theorem C1_reconnection_bound (N : Nat) :
    connect N (fun _ => false) 0 ⟨0, false⟩ = (N + 1, ⟨N, false⟩) ∧
    ∀ (i : Nat) (s : ClientState), N ≤ s.reconnect_attempts →
      handle_reconnect N (fun _ => false) i s = (0, s) := by
  constructor
  · rw [connect]
    simp only [Bool.false_eq_true, if_false]
    rw [handle_reconnect_allfail N N 0 1 (by omega)]
    simp [Nat.add_comm]
  · intro i s h
    rw [handle_reconnect, if_pos h]

/-- Witness for `C1_reconnection_bound` at `N = 2`: three attempts happen
and the recursion makes no further attempt once the counter reached the
maximum. -/
theorem C1_reconnection_bound_witness :
    connect 2 (fun _ => false) 0 ⟨0, false⟩ = (2 + 1, ⟨2, false⟩) ∧
    handle_reconnect 2 (fun _ => false) 9 ⟨5, true⟩ = (0, ⟨5, true⟩) :=
  ⟨(C1_reconnection_bound 2).1,
   (C1_reconnection_bound 2).2 9 ⟨5, true⟩ (by decide)⟩

/-- C7: after `k < N` consecutive failed connection attempts followed by
one successful connect, the final state has `reconnect_attempts = 0` and
`is_connected = true` (having made exactly `k + 1` attempts); in general
every successful `connect` transitions into the connected state with the
counter reset to `0`, restoring the full retry budget. -/
theorem C7_reconnect_reset (N k : Nat) (h : k < N) :
    connect N (fun j => j == k) 0 ⟨0, false⟩ = (k + 1, ⟨0, true⟩) ∧
    ∀ (o : Nat → Bool) (i : Nat) (s : ClientState), o i = true →
      connect N o i s = (1, ⟨0, true⟩) := by
  constructor
  · exact connect_eventually_succeeds N k 0 0 k (by omega) (by omega)
  · intro o i s ho
    rw [connect]
    simp [ho]

/-- Witness for `C7_reconnect_reset` at `N = 3`, `k = 1`: one failure, then
a success, leaves the counter at `0`; a directly successful connect also
resets the counter. -/
theorem C7_reconnect_reset_witness :
    connect 3 (fun j => j == 1) 0 ⟨0, false⟩ = (1 + 1, ⟨0, true⟩) ∧
    connect 3 (fun _ => true) 9 ⟨2, false⟩ = (1, ⟨0, true⟩) :=
  ⟨(C7_reconnect_reset 3 1 (by decide)).1,
   (C7_reconnect_reset 3 1 (by decide)).2 (fun _ => true) 9 ⟨2, false⟩ rfl⟩

theorem zadd_stores (q : List (Envelope × Nat)) (e : Envelope) (sc : Nat) :
    (zadd q e sc).any (fun x => x.1.dump == e.dump && x.2 == sc) = true := by
  rw [zadd]
  by_cases h : q.any (fun p => p.1.dump == e.dump) = true
  · rw [if_pos h, List.any_eq_true]
    rw [List.any_eq_true] at h
    obtain ⟨p0, hmem, hp0⟩ := h
    exact ⟨(p0.1, sc), List.mem_map.2 ⟨p0, hmem, by simp at hp0; simp [hp0]⟩,
      by simp at hp0; simp [hp0]⟩
  · rw [if_neg h]
    simp

/-- C3: enqueuing a message `m` into a connected queue holding no other
message and then dequeuing returns a payload equal to `m` (the envelope's
`data` field, with the added timestamp and priority stripped), and
`get_queue_size` afterwards equals its value before the enqueue. -/
theorem C3_enqueue_dequeue_roundtrip (m : JVal) (p : Int) (now : Nat)
    (s : QueueState) (hconn : s.is_connected = true) (hempty : s.store = []) :
    enqueue_message s m p now = .ok { s with store := [(⟨m, now, p⟩, now)] } ∧
    dequeue_message { s with store := [(⟨m, now, p⟩, now)] } =
      .ok (some m, { s with store := [] }) ∧
    get_queue_size { s with store := [] } = get_queue_size s := by
  refine ⟨?_, ?_, ?_⟩
  · simp [enqueue_message, hconn, hempty, zadd]
  · simp [dequeue_message, hconn, zrange00, zrem]
  · simp [get_queue_size, hconn, hempty]

/-- Witness for `C3_enqueue_dequeue_roundtrip` on a concrete message and a
concrete empty connected queue. -/
theorem C3_enqueue_dequeue_roundtrip_witness :
    enqueue_message ⟨true, true, []⟩ (.str "hello") 2 5 =
      .ok ⟨true, true, [(⟨.str "hello", 5, 2⟩, 5)]⟩ ∧
    dequeue_message ⟨true, true, [(⟨.str "hello", 5, 2⟩, 5)]⟩ =
      .ok (some (.str "hello"), ⟨true, true, []⟩) ∧
    get_queue_size ⟨true, true, []⟩ = get_queue_size ⟨true, true, []⟩ :=
  C3_enqueue_dequeue_roundtrip (.str "hello") 2 5 ⟨true, true, []⟩ rfl rfl

/-- C9: `enqueue_message` on a disconnected queue raises `ConnectionError`
(so the store is untouched — the operation produces no new state); on a
connected queue it succeeds and the store then contains the serialized
envelope of the message under the timestamp as ordering score. -/
theorem C9_enqueue_requires_connection (s : QueueState) (m : JVal) (p : Int)
    (now : Nat) :
    (s.is_connected = false → enqueue_message s m p now = .error .connectionError) ∧
    (s.is_connected = true →
      ∃ s' : QueueState, enqueue_message s m p now = .ok s' ∧
        s'.redis_client = s.redis_client ∧ s'.is_connected = true ∧
        (s'.store.any fun x =>
          x.1.dump == Envelope.dump ⟨m, now, p⟩ && x.2 == now) = true) := by
  constructor
  · intro h
    simp [enqueue_message, h]
  · intro h
    refine ⟨{ s with store := zadd s.store ⟨m, now, p⟩ now }, ?_, rfl, h, ?_⟩
    · simp [enqueue_message, h]
    · exact zadd_stores s.store ⟨m, now, p⟩ now

/-- Witness for `C9_enqueue_requires_connection`: a disconnected queue
rejects the enqueue with `ConnectionError`, a connected one stores the
serialized envelope under the timestamp score. -/
theorem C9_enqueue_requires_connection_witness :
    enqueue_message ⟨true, false, []⟩ (.str "x") 0 7 = .error .connectionError ∧
    ∃ s' : QueueState, enqueue_message ⟨true, true, []⟩ (.str "x") 0 7 = .ok s' ∧
      s'.redis_client = true ∧ s'.is_connected = true ∧
      (s'.store.any fun x =>
        x.1.dump == Envelope.dump ⟨.str "x", 7, 0⟩ && x.2 == 7) = true :=
  ⟨(C9_enqueue_requires_connection ⟨true, false, []⟩ (.str "x") 0 7).1 rfl,
   (C9_enqueue_requires_connection ⟨true, true, []⟩ (.str "x") 0 7).2 rfl⟩

/-- C10: on a queue that is not connected, `get_queue_size` returns `0` and
raises nothing, while `dequeue_message` and `enqueue_message` raise
`ConnectionError`; the returned size `0` is indistinguishable from that of
a connected empty queue. -/
theorem C10_size_silent_when_disconnected (s : QueueState)
    (h : s.is_connected = false) :
    get_queue_size s = 0 ∧
    dequeue_message s = .error .connectionError ∧
    (∀ (m : JVal) (p : Int) (t : Nat),
      enqueue_message s m p t = .error .connectionError) ∧
    get_queue_size s = get_queue_size ⟨true, true, []⟩ := by
  refine ⟨?_, ?_, ?_, ?_⟩ <;>
    simp [get_queue_size, dequeue_message, enqueue_message, h]

/-- Witness for `C10_size_silent_when_disconnected` on a disconnected queue
whose backing store is not even empty. -/
theorem C10_size_silent_when_disconnected_witness :
    get_queue_size ⟨true, false, [(⟨.null, 1, 0⟩, 1)]⟩ = 0 ∧
    dequeue_message ⟨true, false, [(⟨.null, 1, 0⟩, 1)]⟩ =
      .error .connectionError ∧
    (∀ (m : JVal) (p : Int) (t : Nat),
      enqueue_message ⟨true, false, [(⟨.null, 1, 0⟩, 1)]⟩ m p t =
        .error .connectionError) ∧
    get_queue_size ⟨true, false, [(⟨.null, 1, 0⟩, 1)]⟩ =
      get_queue_size ⟨true, true, []⟩ :=
  C10_size_silent_when_disconnected ⟨true, false, [(⟨.null, 1, 0⟩, 1)]⟩ rfl

/-- C4: on a frame that is not valid JSON (`json.loads` fails),
`process_message` completes without raising, its trace is exactly the
parse-error log plus the metrics-time observation — in particular no per-op
handler runs and the `message_handler` is never invoked — and in the
pipeline composition the queue is left untouched (no enqueue side effect). -/
theorem C4_malformed_frame_swallowed (hp : Bool) (d : JVal)
    (mq : Option QueueState) (now : Nat) :
    process_message hp none = [.parseErrorLogged, .timeObserved] ∧
    PMEvent.handlerInvoked d ∉ process_message hp none ∧
    pipelineProcessFrame mq none now = (mq, [.parseErrorLogged, .timeObserved]) := by
  refine ⟨rfl, ?_, rfl⟩
  simp [process_message]

/-- C2 counterexample: for the concrete frames `{"op": "utx"}` then
`{"op": "block"}`, the handler-completed event of the first frame belongs
to the trace of `process_message` itself — the dispatch
`await asyncio.create_task(self.message_handler(data))` awaits the task —
and in the read-loop trace it occurs (position 4) strictly before the read
of the second frame (position 6).  This refutes the claim that the handler
invocation is not awaited and that the read loop does not wait for the
handler to finish before reading the next frame. -/
theorem C2_fire_and_forget_counterexample :
    PMEvent.handlerCompleted (JVal.obj [("op", JVal.str "utx")]) ∈
      process_message true (some (JVal.obj [("op", JVal.str "utx")])) ∧
    BlockchainWebSocketClient.listen true [some (JVal.obj [("op", JVal.str "utx")]),
                 some (JVal.obj [("op", JVal.str "block")])] =
      [.frameRead (some (JVal.obj [("op", JVal.str "utx")])),
       .metricInc (.str "utx"),
       .utxLogged (JVal.obj [("op", JVal.str "utx")]),
       .handlerInvoked (JVal.obj [("op", JVal.str "utx")]),
       .handlerCompleted (JVal.obj [("op", JVal.str "utx")]),
       .timeObserved,
       .frameRead (some (JVal.obj [("op", JVal.str "block")])),
       .metricInc (.str "block"),
       .blockLogged (JVal.obj [("op", JVal.str "block")]),
       .handlerInvoked (JVal.obj [("op", JVal.str "block")]),
       .handlerCompleted (JVal.obj [("op", JVal.str "block")]),
       .timeObserved] := by
  constructor
  · simp [process_message, JVal.get, JVal.isStrEq]
  · rfl

/-- C2 (amended): for every successfully parsed inbound frame with a
supplied `message_handler`, `process_message` invokes the handler via a
task that it immediately awaits: the handler invocation and its completion
both occur before `process_message` returns, and therefore before the read
loop reads the next frame. -/
theorem C2_handler_awaited (kvs : List (String × JVal)) (f2 : Option JVal) :
    (∃ mid : List PMEvent,
      process_message true (some (.obj kvs)) =
        [PMEvent.metricInc (JVal.get (.obj kvs) "op" (.str "unknown"))] ++ mid ++
          [PMEvent.handlerInvoked (.obj kvs), PMEvent.handlerCompleted (.obj kvs),
           PMEvent.timeObserved]) ∧
    BlockchainWebSocketClient.listen true [some (.obj kvs), f2] =
      (PMEvent.frameRead (some (.obj kvs)) ::
        process_message true (some (.obj kvs))) ++
      (PMEvent.frameRead f2 :: process_message true f2) := by
  constructor
  · refine ⟨(if (JVal.get (.obj kvs) "op" (.str "unknown")).isStrEq "utx" then
        [PMEvent.utxLogged (.obj kvs)]
      else if (JVal.get (.obj kvs) "op" (.str "unknown")).isStrEq "block" then
        [PMEvent.blockLogged (.obj kvs)]
      else if (JVal.get (.obj kvs) "op" (.str "unknown")).isStrEq "ping" then
        [PMEvent.pingLogged]
      else [PMEvent.unhandledLogged (JVal.get (.obj kvs) "op" (.str "unknown"))]),
      ?_⟩
    simp [process_message]
  · simp [BlockchainWebSocketClient.listen]

/-- C5: for a valid `op="utx"` event immediately followed by a valid
`op="block"` event arriving at increasing event-loop times (so the two
stored envelopes are distinct sorted-set members), the pipeline's
`message_handler` is invoked with both full events in arrival order — the
trace lists the `utx` invocation and enqueue strictly before the `block`
ones — and with no other producer enqueuing, the queue's dequeue order
matches that arrival order (FIFO by enqueue-timestamp score). -/
theorem C5_arrival_order (us bs : List (String × JVal)) (t1 t2 : Nat)
    (hu : JVal.get (.obj us) "op" (.str "unknown") = .str "utx")
    (hb : JVal.get (.obj bs) "op" (.str "unknown") = .str "block")
    (ht : t1 < t2)
    (hm : Envelope.dump ⟨.obj us, t1, 0⟩ ≠ Envelope.dump ⟨.obj bs, t2, 0⟩) :
    pipelineListen (some ⟨true, true, []⟩)
        [(some (.obj us), t1), (some (.obj bs), t2)] =
      (some ⟨true, true, [(⟨.obj us, t1, 0⟩, t1), (⟨.obj bs, t2, 0⟩, t2)]⟩,
       [.frameRead (some (.obj us)), .metricInc (.str "utx"),
        .utxLogged (.obj us), .handlerInvoked (.obj us),
        .enqueued (.obj us) t1, .handlerCompleted (.obj us), .timeObserved,
        .frameRead (some (.obj bs)), .metricInc (.str "block"),
        .blockLogged (.obj bs), .handlerInvoked (.obj bs),
        .enqueued (.obj bs) t2, .handlerCompleted (.obj bs), .timeObserved]) ∧
    dequeue_message
        ⟨true, true, [(⟨.obj us, t1, 0⟩, t1), (⟨.obj bs, t2, 0⟩, t2)]⟩ =
      .ok (some (.obj us), ⟨true, true, [(⟨.obj bs, t2, 0⟩, t2)]⟩) ∧
    dequeue_message ⟨true, true, [(⟨.obj bs, t2, 0⟩, t2)]⟩ =
      .ok (some (.obj bs), ⟨true, true, []⟩) := by
  have hne : (Envelope.dump ⟨.obj us, t1, 0⟩ ==
      Envelope.dump ⟨.obj bs, t2, 0⟩) = false :=
    beq_eq_false_iff_ne.mpr hm
  have hne2 : (Envelope.dump ⟨.obj bs, t2, 0⟩ ==
      Envelope.dump ⟨.obj us, t1, 0⟩) = false :=
    beq_eq_false_iff_ne.mpr (Ne.symm hm)
  have h21 : ¬ (t2 < t1) := by omega
  have hne21 : t2 ≠ t1 := by omega
  refine ⟨?_, ?_, ?_⟩
  · simp [pipelineListen, pipelineProcessFrame, message_handler,
      enqueue_message, zadd, hu, hb, hne, JVal.isStrEq]
  · simp [dequeue_message, zrange00, entryLt, h21, hne21, zrem, hne2]
  · simp [dequeue_message, zrange00, zrem]

/-- Witness for `C5_arrival_order` on the concrete frames
`{"op": "utx"}` at time 10 and `{"op": "block"}` at time 20. -/
theorem C5_arrival_order_witness :
    pipelineListen (some ⟨true, true, []⟩)
        [(some (.obj [("op", JVal.str "utx")]), 10),
         (some (.obj [("op", JVal.str "block")]), 20)] =
      (some ⟨true, true,
        [(⟨.obj [("op", JVal.str "utx")], 10, 0⟩, 10),
         (⟨.obj [("op", JVal.str "block")], 20, 0⟩, 20)]⟩,
       [.frameRead (some (.obj [("op", JVal.str "utx")])),
        .metricInc (.str "utx"),
        .utxLogged (.obj [("op", JVal.str "utx")]),
        .handlerInvoked (.obj [("op", JVal.str "utx")]),
        .enqueued (.obj [("op", JVal.str "utx")]) 10,
        .handlerCompleted (.obj [("op", JVal.str "utx")]), .timeObserved,
        .frameRead (some (.obj [("op", JVal.str "block")])),
        .metricInc (.str "block"),
        .blockLogged (.obj [("op", JVal.str "block")]),
        .handlerInvoked (.obj [("op", JVal.str "block")]),
        .enqueued (.obj [("op", JVal.str "block")]) 20,
        .handlerCompleted (.obj [("op", JVal.str "block")]), .timeObserved]) ∧
    dequeue_message
        ⟨true, true,
         [(⟨.obj [("op", JVal.str "utx")], 10, 0⟩, 10),
          (⟨.obj [("op", JVal.str "block")], 20, 0⟩, 20)]⟩ =
      .ok (some (.obj [("op", JVal.str "utx")]),
        ⟨true, true, [(⟨.obj [("op", JVal.str "block")], 20, 0⟩, 20)]⟩) ∧
    dequeue_message
        ⟨true, true, [(⟨.obj [("op", JVal.str "block")], 20, 0⟩, 20)]⟩ =
      .ok (some (.obj [("op", JVal.str "block")]), ⟨true, true, []⟩) :=
  C5_arrival_order [("op", JVal.str "utx")] [("op", JVal.str "block")] 10 20
    rfl rfl (by decide) (by decide)

/-- C6: on a queue holding exactly two messages (distinct members, the
first with the lower score), a processing function that raises on the first
message but not on the second leaves the consumer loop running after both
iterations: the exception is caught and logged, both messages end up
removed from the queue, and the `running` flag is still true. -/
theorem C6_consumer_resilience (e1 e2 : Envelope) (t1 t2 : Nat) (cl : Bool)
    (raises : JVal → Bool)
    (ht : t1 < t2) (hm : e1.dump ≠ e2.dump)
    (h1 : raises e1.data = true) (h2 : raises e2.data = false) :
    start_processing raises 2 ⟨⟨cl, true, [(e1, t1), (e2, t2)]⟩, true⟩ =
      (⟨⟨cl, true, []⟩, true⟩, [.errorLogged, .processed e2.data]) := by
  have hne : (e2.dump == e1.dump) = false := beq_eq_false_iff_ne.mpr (Ne.symm hm)
  have h21 : ¬ (t2 < t1) := by omega
  have hne21 : t2 ≠ t1 := by omega
  simp [start_processing, processing_step, dequeue_message, zrange00, entryLt,
    h21, hne21, zrem, hne, h1, h2]

/-- Witness for `C6_consumer_resilience`: the processing function raises
exactly on the payload `"a"`; both concrete messages get dequeued and the
loop is still running. -/
theorem C6_consumer_resilience_witness :
    start_processing (fun m => m.isStrEq "a") 2
      ⟨⟨true, true, [(⟨.str "a", 0, 0⟩, 1), (⟨.str "b", 0, 0⟩, 2)]⟩, true⟩ =
      (⟨⟨true, true, []⟩, true⟩, [.errorLogged, .processed (.str "b")]) :=
  C6_consumer_resilience ⟨.str "a", 0, 0⟩ ⟨.str "b", 0, 0⟩ 1 2 true
    (fun m => m.isStrEq "a") (by decide) (by decide) rfl rfl

theorem ws_disconnect_idem (c : WSClientState) :
    ws_disconnect (ws_disconnect c) = ws_disconnect c := by
  by_cases h : c.websocket = true <;> simp [ws_disconnect, h]

theorem db_disconnect_idem (d : DBState) :
    db_disconnect (db_disconnect d) = db_disconnect d := by
  by_cases h : d.pool = true <;> simp [db_disconnect, h]

theorem mq_disconnect_idem (q : QueueState) :
    mq_disconnect (mq_disconnect q) = mq_disconnect q := by
  by_cases h : q.redis_client = true <;> simp [mq_disconnect, h]

theorem stop_returns_ok (ws : Option WSClientState) (mq : Option QueueState)
    (db : Option DBState) (mp : Option Bool) (r : Bool) :
    DataPipeline.stop ⟨ws, mq, db, mp, r⟩ =
      .ok ⟨ws.map ws_disconnect, mq.map mq_disconnect, db.map db_disconnect,
        mp.map (fun _ => false), false⟩ := by
  cases ws <;> cases mq <;> cases db <;> cases mp <;> rfl

/-- C8: `DataPipeline.stop` never raises: on every pipeline state —
including the freshly constructed one where no component was ever built —
it returns successfully, and calling it again on the resulting state
returns that same state (each guarded teardown step is idempotent). -/
theorem C8_idempotent_teardown (p : PipelineState) :
    ∃ p' : PipelineState, DataPipeline.stop p = .ok p' ∧
      DataPipeline.stop p' = .ok p' ∧
      DataPipeline.stop ⟨none, none, none, none, false⟩ =
        .ok ⟨none, none, none, none, false⟩ := by
  obtain ⟨ws, mq, db, mp, r⟩ := p
  refine ⟨_, stop_returns_ok ws mq db mp r, ?_, rfl⟩
  rw [stop_returns_ok]
  cases ws <;> cases mq <;> cases db <;> cases mp <;>
    simp [ws_disconnect_idem, mq_disconnect_idem, db_disconnect_idem]
